import Mathlib

/-!
Shallow embedding of the synchronized-broadcast core of the repository:
`BlockMonitor.verifyBlockInclusion` (src/unnamed/part_007),
`SynchronizationEngine.executeSimultaneously` and `waitForSlotEdge`
(src/src/core/SynchronizationEngine.ts), and
`WalletManager.getReadyWallets` (src/unnamed/part_005).

Network effects are modelled by explicit oracles: the RPC lookup
`getTransaction` becomes a function `String → Option TxInfo` (a caught RPC
error produces the same record as a `null` response, so both are `none`),
`sendRawTransaction` becomes a function from the transaction index to
`Except String String` (error message or signature), and the slot-change
subscription becomes the list of slot ordinals observed while waiting.
JavaScript numbers are modelled by `Nat` (slot ordinals, counts) and `ℚ`
(the percentage arithmetic); the `x || y` falsy fallback and the
`undefined - undefined = NaN` comparison are modelled explicitly where the
source relies on them.
-/

namespace PumpSync

/-- Per-transaction input to `verifyBlockInclusion`
(`Array<{ wallet: string; hash: string }>`, part_007 line 32). -/
structure TxData where
  wallet : String
  hash : String
deriving DecidableEq, Repr

/-- The part of a `getTransaction` RPC response read by the verifier
(`txInfo.slot`, `txInfo.blockTime ?? null`, part_007 lines 54-55). -/
structure TxInfo where
  slot : Nat
  blockTime : Option Int
deriving DecidableEq, Repr

/-- One element of `VerificationResult.transactionHashes`
(src/src/types/interfaces.ts, `VerificationResult`). -/
structure TxRecord where
  wallet : String
  hash : String
  confirmed : Bool
  slot : Option Nat
  blockTime : Option Int
deriving DecidableEq, Repr

/-- The body of the `transactionHashes.map` callback (part_007 lines 43-76):
a found transaction yields a confirmed record carrying its slot; a `null`
response or a caught RPC error yields an unconfirmed record with `slot = null`
(both failure branches build the identical record object). -/
def checkTransaction (getTx : String → Option TxInfo) (t : TxData) : TxRecord :=
  match getTx t.hash with
  | some info =>
      { wallet := t.wallet, hash := t.hash, confirmed := true
        slot := some info.slot, blockTime := info.blockTime }
  | none =>
      { wallet := t.wallet, hash := t.hash, confirmed := false
        slot := none, blockTime := none }

/-- `transactionResults` (part_007 lines 42-77): one record per input element,
in input order. -/
def recordsOf (getTx : String → Option TxInfo) (txs : List TxData) : List TxRecord :=
  txs.map (checkTransaction getTx)

/-- `confirmedTxs = transactionResults.filter(tx => tx.confirmed)` (line 79). -/
def confirmedOf (getTx : String → Option TxInfo) (txs : List TxData) : List TxRecord :=
  (recordsOf getTx txs).filter (fun r => r.confirmed)

/-- `slots = confirmedTxs.map(tx => tx.slot).filter(slot => slot !== null)`
(line 82): the landed block ordinals of the confirmed records. -/
def landedSlots (getTx : String → Option TxInfo) (txs : List TxData) : List Nat :=
  (confirmedOf getTx txs).filterMap (fun r => r.slot)

/-- `uniqueSlots = [...new Set(slots)].sort((a, b) => a - b)` (line 83).
A JavaScript `Set` keeps one copy of each value and the numeric sort orders
them ascending; deduplicating and sorting by `≤` yields the same list
(sorted lists over the same set of naturals are equal regardless of which
duplicate occurrence the deduplication keeps). -/
def uniqueSlotsOf (slots : List Nat) : List Nat :=
  List.insertionSort (· ≤ ·) slots.dedup

/-- `uniqueSlots[uniqueSlots.length - 1] - uniqueSlots[0] <= 2` (line 86).
On an empty array both accesses are `undefined`, the subtraction is `NaN`,
and `NaN <= 2` is `false`; on a non-empty array the subtraction is exact
integer arithmetic. -/
def lenientSpread (l : List Nat) : Bool :=
  match (l[l.length - 1]? : Option Nat), (l[0]? : Option Nat) with
  | some last, some first => decide ((last : Int) - (first : Int) ≤ 2)
  | _, _ => false

/-- `allInSameBlock = uniqueSlots.length === 1 ||
(uniqueSlots.length <= 3 && uniqueSlots[...] - uniqueSlots[0] <= 2)`
(lines 85-86). -/
def allInSameBlockCalc (uniq : List Nat) : Bool :=
  uniq.length == 1 || (decide (uniq.length ≤ 3) && lenientSpread uniq)

/-- `successRate = (confirmedTxs.length / transactionHashes.length) * 100`
(line 88), as exact rational arithmetic. For an empty input the JavaScript
value is `NaN` (0/0); the Lean value 0 is a placeholder there, and every
theorem about `successRate` assumes a non-empty input. -/
def successRateOf (getTx : String → Option TxInfo) (txs : List TxData) : ℚ :=
  ((confirmedOf getTx txs).length : ℚ) / (txs.length : ℚ) * 100

/-- The JavaScript fallback `x || y` on a possibly-undefined number `x`
(lines 93, 99): `undefined` and the falsy number 0 both select `y`. -/
def jsNumOr (x : Option Nat) (y : Nat) : Nat :=
  match x with
  | some v => if v = 0 then y else v
  | none => y

/-- `VerificationResult` (src/src/types/interfaces.ts). -/
structure VerificationResult where
  allInSameBlock : Bool
  blockHeight : Nat
  transactionCount : Nat
  successRate : ℚ
  transactionHashes : List TxRecord
deriving DecidableEq, Repr

/-- `BlockMonitor.verifyBlockInclusion` (part_007 lines 32-112), with the
RPC lookups replaced by the oracle `getTx` and the `getSlot()` call at line
39 replaced by the parameter `currentSlot`. The settle sleep at line 36 has
no effect on the returned value. -/
def verifyBlockInclusion (getTx : String → Option TxInfo) (currentSlot : Nat)
    (txs : List TxData) : VerificationResult :=
  let uniq := uniqueSlotsOf (landedSlots getTx txs)
  let allSame := allInSameBlockCalc uniq
  -- `blockHeight = allInSameBlock ? uniqueSlots[0] : currentSlot` (line 89),
  -- then `blockHeight || currentSlot` (line 93).
  let bh : Option Nat := if allSame then uniq[0]? else some currentSlot
  { allInSameBlock := allSame
    blockHeight := jsNumOr bh currentSlot
    transactionCount := (confirmedOf getTx txs).length
    successRate := successRateOf getTx txs
    transactionHashes := recordsOf getTx txs }

/-- `Wallet` (src/src/types/interfaces.ts); the secret key bytes are carried
opaquely and never inspected by the embedded code. -/
structure Wallet where
  publicKey : String
  secretKey : List Nat
  balance : ℚ
  isReady : Bool
deriving DecidableEq, Repr

/-- `WalletManager.getReadyWallets` (src/unnamed/part_005 lines 145-149):
filter to the ready wallets, then `slice(0, config.wallet.count)`; the
configured count is the parameter `cfgCount`. -/
def getReadyWallets (wallets : List Wallet) (cfgCount : Nat) : List Wallet :=
  (wallets.filter (fun w => w.isReady)).take cfgCount

/-- `WalletManager.getReadyWallets` in the duplicate tree
src/src/core/WalletManager.ts lines 167-169, which returns every ready
wallet without the slice. -/
def getReadyWalletsCore (wallets : List Wallet) : List Wallet :=
  wallets.filter (fun w => w.isReady)

/-- The options object passed to `sendRawTransaction`
(SynchronizationEngine.ts lines 219-223). -/
structure SendOptions where
  skipPreflight : Bool
  preflightCommitment : String
  maxRetries : Nat
deriving DecidableEq, Repr

/-- `{ skipPreflight: true, preflightCommitment: 'processed', maxRetries: 0 }`
(lines 220-222). -/
def sendRawTransactionOptions : SendOptions :=
  { skipPreflight := true, preflightCommitment := "processed", maxRetries := 0 }

/-- The per-transaction result object built in the `.then` / `.catch`
branches (lines 227-243); `sendTime` is wall-clock telemetry and is not
modelled. -/
structure SendOutcome where
  success : Bool
  signature : Option String
  wallet : String
  error : Option String
deriving DecidableEq, Repr

/-- `readyWallets[globalIndex]?.publicKey || 'unknown'` (lines 230, 240):
a missing wallet, or the falsy empty string, falls back to `'unknown'`. -/
def walletKeyAt (ws : List Wallet) (i : Nat) : String :=
  match ws[i]? with
  | some w => if w.publicKey = "" then "unknown" else w.publicKey
  | none => "unknown"

/-- One `sendRawTransaction` call with its `.then` / `.catch` handlers
(lines 219-244). The submission endpoint is the oracle `send`, giving each
index either a signature or an error message; each index consults the
oracle exactly once (`maxRetries: 0`, no retry loop in the source). -/
def dispatchOne (ws : List Wallet) (send : Nat → Except String String)
    (i : Nat) : SendOutcome :=
  match send i with
  | Except.ok sig =>
      { success := true, signature := some sig, wallet := walletKeyAt ws i, error := none }
  | Except.error e =>
      { success := false, signature := none, wallet := walletKeyAt ws i, error := some e }

/-- The collected `executionPromises` results (lines 209-256). The
micro-batching in groups of 2 with 1 ms gaps only schedules the sends; the
collected list has exactly one outcome per serialized transaction, in index
order, and no send waits on, cancels, or is cancelled by a sibling. -/
def dispatchAll (ws : List Wallet) (send : Nat → Except String String)
    (n : Nat) : List SendOutcome :=
  (List.range n).map (dispatchOne ws send)

/-- `transactionHashes: successfulTxs.map(r => ({ wallet: r.wallet,
hash: r.signature! }))` (line 271): only the successful sends are handed to
the verifier. -/
def successfulHashes (results : List SendOutcome) : List TxData :=
  (results.filter (fun r => r.success)).map
    (fun r => { wallet := r.wallet, hash := r.signature.getD "" })

/-- What `waitForSlotEdge` does on the success path: the slot ordinal it
observed when it resolved, and the delay it schedules between that
observation and resolving. The source (lines 356-373) calls `resolve()`
directly in both paths, so the scheduled settle delay is 0 ms. -/
structure EdgeWait where
  observedSlot : Nat
  settleDelayMs : Nat
deriving DecidableEq, Repr

/-- `SynchronizationEngine.waitForSlotEdge` (lines 347-375): `trackerSlot`
is the cached `this.currentSlot`, and `events` is the stream of slot
ordinals delivered to the slot-change listener before the 10 s timeout
fires. If the cache is already at or past the target the promise resolves
immediately; otherwise it resolves at the first observed ordinal that
reaches the target; if no such event arrives, the timeout rejects
(`Timeout waiting for slot ... edge`), modelled as `none`. -/
def waitForSlotEdge (trackerSlot target : Nat) (events : List Nat) :
    Option EdgeWait :=
  if target ≤ trackerSlot then some { observedSlot := trackerSlot, settleDelayMs := 0 }
  else
    match events.find? (fun s => target ≤ s) with
    | some s => some { observedSlot := s, settleDelayMs := 0 }
    | none => none

/-- `const targetSlot = startSlot + 1` (line 181); `calculateOptimalTiming`
(line 136) uses the same `currentSlot + 1` offset. -/
def execTargetSlot (startSlot : Nat) : Nat := startSlot + 1

/-- Cycle-level failures of `executeSimultaneously`: a missing ready wallet
during pre-signing (line 173) or the boundary-wait timeout (line 352).
Both propagate out of the method as thrown errors. -/
inductive CycleError where
  | walletMissing
  | timeout
deriving DecidableEq, Repr

/-- `ExecutionResult` (src/src/types/interfaces.ts); `executionTime` and
`gasUsed` are wall-clock telemetry and a constant 0 and are not modelled. -/
structure ExecutionResultModel where
  success : Bool
  transactionHashes : List TxData
  blockHeight : Nat
  blockHash : String
  successRate : ℚ
  failedWallets : List String
deriving DecidableEq, Repr

/-- The environment of one `executeSimultaneously` call: the wallet state
and configured count behind `getReadyWallets`, the tracker cache and
`getSlot()` reading, the slot events seen while waiting, the fresh
blockhash, and the submission oracle. -/
structure EngineEnv where
  wallets : List Wallet
  cfgCount : Nat
  trackerSlot : Nat
  startSlot : Nat
  slotEvents : List Nat
  blockhash : String
  send : Nat → Except String String

/-- The observable outcome of one cycle: the returned value or thrown
error, plus how many transactions were finalized (given the fresh
blockhash and re-signed, lines 194-200) and how many were handed to
`sendRawTransaction` (lines 213-253). The pre-signing at lines 169-177
happens before the wait but uses only the stale template state and its
results are discarded on abort. -/
structure CycleOutcome where
  result : Except CycleError ExecutionResultModel
  finalizedCount : Nat
  dispatchedCount : Nat

/-- `SynchronizationEngine.executeSimultaneously` (lines 157-294) on a batch
of `numTxs` prepared transactions. Pre-signing throws if any index lacks a
ready wallet (line 173); then the engine targets `startSlot + 1` and waits
for that slot edge — a timeout aborts the cycle before any transaction is
finalized or dispatched; on success every transaction is re-signed with the
fresh blockhash, serialized, and dispatched through the pool, and the
result aggregates the per-transaction outcomes. -/
def executeSimultaneously (env : EngineEnv) (numTxs : Nat) : CycleOutcome :=
  let readyWallets := getReadyWallets env.wallets env.cfgCount
  if numTxs ≤ readyWallets.length then
    match waitForSlotEdge env.trackerSlot (execTargetSlot env.startSlot) env.slotEvents with
    | none => { result := Except.error CycleError.timeout, finalizedCount := 0, dispatchedCount := 0 }
    | some _ =>
        let results := dispatchAll readyWallets env.send numTxs
        let successfulTxs := results.filter (fun r => r.success)
        let successRate : ℚ := ((successfulTxs.length : ℚ) / (results.length : ℚ)) * 100
        { result := Except.ok
            { success := decide (0 < successRate)
              transactionHashes := successfulHashes results
              blockHeight := env.trackerSlot
              blockHash := env.blockhash
              successRate := successRate
              failedWallets := (results.filter (fun r => !r.success)).map (fun r => r.wallet) }
          finalizedCount := numTxs
          dispatchedCount := numTxs }
  else
    { result := Except.error CycleError.walletMissing, finalizedCount := 0, dispatchedCount := 0 }

/-- The pipeline in `PumpFunMultiWalletBot.execute` (src/src/index.ts lines
96-104): run the burst, then verify block inclusion over
`results.transactionHashes` — the successfully sent transactions only. -/
def runAndVerify (env : EngineEnv) (getTx : String → Option TxInfo)
    (verifySlot : Nat) (numTxs : Nat) : Except CycleError VerificationResult :=
  match (executeSimultaneously env numTxs).result with
  | Except.ok r => Except.ok (verifyBlockInclusion getTx verifySlot r.transactionHashes)
  | Except.error e => Except.error e

/-! Concrete inputs used to evaluate the embedded code on specific runs. -/

/-- A funded, ready wallet with address `A`. -/
def wA : Wallet := { publicKey := "A", secretKey := [], balance := 1, isReady := true }

/-- A funded, ready wallet with address `B`. -/
def wB : Wallet := { publicKey := "B", secretKey := [], balance := 1, isReady := true }

/-- A funded, ready wallet with address `C`. -/
def wC : Wallet := { publicKey := "C", secretKey := [], balance := 1, isReady := true }

/-- A ledger on which hash `h1` landed in slot 1000 and hash `h2` in slot
1001 (two adjacent blocks). -/
def gTwoSlots : String → Option TxInfo := fun h =>
  if h = "h1" then some { slot := 1000, blockTime := none }
  else if h = "h2" then some { slot := 1001, blockTime := none }
  else none

/-- Two dispatched transactions with hashes `h1`, `h2`. -/
def txsTwo : List TxData := [{ wallet := "wa", hash := "h1" }, { wallet := "wb", hash := "h2" }]

/-- A ledger on which no transaction ever confirms. -/
def gNone : String → Option TxInfo := fun _ => none

/-- A run of one transaction whose send is rejected by the endpoint. -/
def envSendFails : EngineEnv :=
  { wallets := [wA], cfgCount := 1, trackerSlot := 100, startSlot := 100
    slotEvents := [101], blockhash := "bh", send := fun _ => Except.error "boom" }

/-- A submission endpoint that accepts transaction 0 with signature `s1`
and rejects every other transaction. -/
def sendFirstOnly : Nat → Except String String := fun i =>
  if i = 0 then Except.ok "s1" else Except.error "boom"

/-- A run of two transactions over `sendFirstOnly`. -/
def envHalfSent : EngineEnv :=
  { wallets := [wA, wB], cfgCount := 2, trackerSlot := 100, startSlot := 100
    slotEvents := [101], blockhash := "bh", send := sendFirstOnly }

/-- A ledger on which the sent transaction `s1` landed in slot 1000. -/
def gS1Lands : String → Option TxInfo := fun h =>
  if h = "s1" then some { slot := 1000, blockTime := none } else none

/-- A run in which the tracker never delivers a slot event, so the
boundary wait times out. -/
def envNeverAdvances : EngineEnv :=
  { wallets := [wA], cfgCount := 1, trackerSlot := 10, startSlot := 10
    slotEvents := [], blockhash := "bh", send := fun _ => Except.ok "sig" }

/-- Three ready wallets, more than the configured count of 2. -/
def wsThreeReady : List Wallet := [wA, wB, wC]

/-- A submission endpoint that accepts everything. -/
def sendAllOk : Nat → Except String String := fun _ => Except.ok "sig"

/-- A submission endpoint that rejects transaction 0 and accepts the rest. -/
def sendFailsAtZero : Nat → Except String String := fun i =>
  if i = 0 then Except.error "boom" else Except.ok "sig"

/-- Like `sendFailsAtZero` but transaction 0 succeeds: the two oracles
agree everywhere except at index 0. -/
def sendOkAtZero : Nat → Except String String := fun i =>
  if i = 0 then Except.ok "other" else Except.ok "sig"

/-- The record produced for the first element of `txsTwo` on `gTwoSlots`. -/
def recTwoHead : TxRecord :=
  { wallet := "wa", hash := "h1", confirmed := true, slot := some 1000, blockTime := none }

/-- The first element of `txsTwo`. -/
def txTwoHead : TxData := { wallet := "wa", hash := "h1" }

/-! Helper lemmas about the embedded definitions. -/

lemma verify_allInSameBlock (g : String → Option TxInfo) (cur : Nat) (txs : List TxData) :
    (verifyBlockInclusion g cur txs).allInSameBlock
      = allInSameBlockCalc (uniqueSlotsOf (landedSlots g txs)) := rfl

lemma verify_blockHeight (g : String → Option TxInfo) (cur : Nat) (txs : List TxData) :
    (verifyBlockInclusion g cur txs).blockHeight
      = jsNumOr
          (if allInSameBlockCalc (uniqueSlotsOf (landedSlots g txs)) then
            (uniqueSlotsOf (landedSlots g txs))[0]? else some cur) cur := rfl

lemma jsNumOr_some_self (c : Nat) : jsNumOr (some c) c = c := by
  unfold jsNumOr
  by_cases h : c = 0 <;> simp [h]

lemma mem_uniqueSlotsOf {slots : List Nat} {x : Nat} :
    x ∈ uniqueSlotsOf slots ↔ x ∈ slots := by
  unfold uniqueSlotsOf
  rw [(List.perm_insertionSort _ _).mem_iff, List.mem_dedup]

lemma length_uniqueSlotsOf (slots : List Nat) :
    (uniqueSlotsOf slots).length = slots.toFinset.card := by
  unfold uniqueSlotsOf
  rw [(List.perm_insertionSort _ _).length_eq, List.card_toFinset]

lemma sorted_uniqueSlotsOf (slots : List Nat) :
    (uniqueSlotsOf slots).Sorted (· ≤ ·) :=
  List.sorted_insertionSort _ _

lemma sorted_getElem_le {l : List Nat} (hs : l.Sorted (· ≤ ·))
    {i j : Nat} (hi : i < l.length) (hj : j < l.length) (hij : i ≤ j) :
    l[i] ≤ l[j] := by
  rcases Nat.lt_or_eq_of_le hij with h | h
  · exact List.pairwise_iff_get.mp hs ⟨i, hi⟩ ⟨j, hj⟩ h
  · subst h
    exact le_refl _

lemma lenientSpread_eq_true_iff {l : List Nat} (hs : l.Sorted (· ≤ ·)) :
    lenientSpread l = true ↔ l ≠ [] ∧ ∀ a ∈ l, ∀ b ∈ l, a - b ≤ 2 := by
  rcases l with _ | ⟨x, xs⟩
  · simp [lenientSpread]
  · have hlen : 0 < (x :: xs).length := by simp
    have hlast : (x :: xs).length - 1 < (x :: xs).length := by omega
    have hfirst_le : ∀ a ∈ x :: xs, (x :: xs)[0] ≤ a := by
      intro a ha
      obtain ⟨⟨k, hk⟩, rfl⟩ := List.mem_iff_get.mp ha
      exact sorted_getElem_le hs hlen hk (Nat.zero_le k)
    have hle_last : ∀ a ∈ x :: xs, a ≤ (x :: xs)[(x :: xs).length - 1] := by
      intro a ha
      obtain ⟨⟨k, hk⟩, rfl⟩ := List.mem_iff_get.mp ha
      exact sorted_getElem_le hs hk hlast (by omega)
    simp only [lenientSpread, List.getElem?_eq_getElem hlast,
      List.getElem?_eq_getElem hlen, decide_eq_true_eq]
    constructor
    · intro h
      refine ⟨by simp, ?_⟩
      intro a ha b hb
      have h1 := hle_last a ha
      have h2 := hfirst_le b hb
      omega
    · rintro ⟨-, hsp⟩
      have h1 := hsp ((x :: xs)[(x :: xs).length - 1])
        (List.getElem_mem hlast) ((x :: xs)[0]) (List.getElem_mem hlen)
      have h2 := sorted_getElem_le hs hlen hlast (by omega)
      omega

lemma dispatchOne_wallet (ws : List Wallet) (send : Nat → Except String String)
    (i : Nat) : (dispatchOne ws send i).wallet = walletKeyAt ws i := by
  unfold dispatchOne
  cases send i <;> rfl

lemma length_dispatchAll (ws : List Wallet) (send : Nat → Except String String)
    (n : Nat) : (dispatchAll ws send n).length = n := by
  unfold dispatchAll
  rw [List.length_map, List.length_range]

lemma dispatchAll_map_wallet (ws : List Wallet) (send : Nat → Except String String)
    (h : ∀ w ∈ ws, w.publicKey ≠ "") :
    (dispatchAll ws send ws.length).map (fun o => o.wallet)
      = ws.map (fun w => w.publicKey) := by
  apply List.ext_getElem
  · rw [List.length_map, length_dispatchAll, List.length_map]
  · intro i h1 h2
    have hi : i < ws.length := by
      rwa [List.length_map] at h2
    simp only [dispatchAll, List.getElem_map, List.getElem_range, dispatchOne_wallet]
    unfold walletKeyAt
    rw [List.getElem?_eq_getElem hi]
    simp [h ws[i] (List.getElem_mem hi)]

/-! Theorems settling the claims. -/

/-- Claim C1, counterexample to the claim as stated: on a run whose two
confirmed transactions landed in the adjacent slots 1000 and 1001, the set
of landed ordinals has two elements, yet the returned allInSameBlock flag
is true (the lenient near-same-block criterion is part of the flag, not a
separate report-only verdict). -/
theorem c1_counterexample :
    (verifyBlockInclusion gTwoSlots 500 txsTwo).allInSameBlock = true
      ∧ (landedSlots gTwoSlots txsTwo).toFinset.card = 2 := by
  constructor <;> decide

/-- Claim C1 (amended): the allInSameBlock flag of `verifyBlockInclusion`
is true iff the set of landed block ordinals among confirmed records has
exactly one element, or has between one and three elements with every two
landed ordinals at most 2 apart (the lenient criterion is part of the
flag). -/
theorem c1_allInSameBlock_iff (g : String → Option TxInfo) (cur : Nat)
    (txs : List TxData) :
    (verifyBlockInclusion g cur txs).allInSameBlock = true ↔
      ((landedSlots g txs).toFinset.card = 1 ∨
       (1 ≤ (landedSlots g txs).toFinset.card ∧
        (landedSlots g txs).toFinset.card ≤ 3 ∧
        ∀ a ∈ landedSlots g txs, ∀ b ∈ landedSlots g txs, a - b ≤ 2)) := by
  rw [verify_allInSameBlock]
  have hsorted := sorted_uniqueSlotsOf (landedSlots g txs)
  have hlen := length_uniqueSlotsOf (landedSlots g txs)
  unfold allInSameBlockCalc
  rw [Bool.or_eq_true, Bool.and_eq_true, beq_iff_eq, decide_eq_true_eq,
    lenientSpread_eq_true_iff hsorted]
  constructor
  · rintro (h1 | ⟨h3, hne, hsp⟩)
    · left
      omega
    · right
      have hpos := List.length_pos.mpr hne
      refine ⟨by omega, by omega, ?_⟩
      intro a ha b hb
      exact hsp a (mem_uniqueSlotsOf.mpr ha) b (mem_uniqueSlotsOf.mpr hb)
  · rintro (h1 | ⟨h1, h3, hsp⟩)
    · left
      omega
    · right
      refine ⟨by omega, ?_, ?_⟩
      · intro hnil
        rw [hnil] at hlen
        simp at hlen
        omega
      · intro a ha b hb
        exact hsp a (mem_uniqueSlotsOf.mp ha) b (mem_uniqueSlotsOf.mp hb)

/-- Claim C2, counterexample to the claim as stated: a run that dispatches
one transaction whose send fails produces a verification report with zero
VerificationRecords, not one — only successfully sent transactions are
handed to the verifier. -/
theorem c2_counterexample :
    (runAndVerify envSendFails gNone 200 1).map
        (fun r => r.transactionHashes.length) = Except.ok 0
      ∧ (0 : Nat) ≠ 1 := by
  refine ⟨rfl, by decide⟩

/-- Claim C2 (amended): the verification report contains exactly one
VerificationRecord per successfully sent transaction (the elements of
ExecutionResult.transactionHashes); transactions whose send failed are not
represented among the records, and the number of records never exceeds the
number dispatched. -/
theorem c2_records_per_sent (ws : List Wallet) (send : Nat → Except String String)
    (n : Nat) (g : String → Option TxInfo) (cur : Nat) :
    (verifyBlockInclusion g cur
        (successfulHashes (dispatchAll ws send n))).transactionHashes.length
        = ((dispatchAll ws send n).filter (fun r => r.success)).length
      ∧ ((dispatchAll ws send n).filter (fun r => r.success)).length ≤ n := by
  constructor
  · show (recordsOf g (successfulHashes (dispatchAll ws send n))).length = _
    unfold recordsOf successfulHashes
    rw [List.length_map, List.length_map]
  · calc ((dispatchAll ws send n).filter (fun r => r.success)).length
        ≤ (dispatchAll ws send n).length := List.length_filter_le _ _
      _ = n := length_dispatchAll ws send n

/-- Claim C3, counterexample to the claim as stated: a run that dispatches
two transactions, of which one send fails and the sent one confirms,
reports successRate 100 — confirmed count divided by the number
successfully sent — not 1/2 × 100 = 50 as dividing by the number
dispatched would give. -/
theorem c3_counterexample :
    (runAndVerify envHalfSent gS1Lands 200 2).map
        (fun r => r.successRate) = Except.ok 100
      ∧ (100 : ℚ) ≠ (1 : ℚ) / 2 * 100 := by
  constructor
  · have h1 : (runAndVerify envHalfSent gS1Lands 200 2).map (fun r => r.successRate)
        = Except.ok (successRateOf gS1Lands [{ wallet := "A", hash := "s1" }]) := rfl
    have h3 : (confirmedOf gS1Lands [{ wallet := "A", hash := "s1" }]).length = 1 := rfl
    have h4 : ([{ wallet := "A", hash := "s1" }] : List TxData).length = 1 := rfl
    rw [h1]
    unfold successRateOf
    rw [h3, h4]
    norm_num
  · norm_num

/-- Claim C3 (amended): the verification successRate equals confirmedCount
divided by the length of the verifier's input — the successfully sent
transactions, not all dispatched ones — times 100 exactly, and it lies in
[0, 100] whenever that input is non-empty (on an empty input the
JavaScript value is NaN). -/
theorem c3_successRate (g : String → Option TxInfo) (cur : Nat)
    (txs : List TxData) (h : txs ≠ []) :
    (verifyBlockInclusion g cur txs).successRate
        = ((confirmedOf g txs).length : ℚ) / (txs.length : ℚ) * 100
      ∧ 0 ≤ (verifyBlockInclusion g cur txs).successRate
      ∧ (verifyBlockInclusion g cur txs).successRate ≤ 100 := by
  have hc : (confirmedOf g txs).length ≤ txs.length := by
    calc (confirmedOf g txs).length ≤ (recordsOf g txs).length :=
          List.length_filter_le _ _
      _ = txs.length := List.length_map _ _
  have hn : 0 < txs.length := List.length_pos.mpr h
  have h0 : (0 : ℚ) < (txs.length : ℚ) := by exact_mod_cast hn
  refine ⟨rfl, ?_, ?_⟩
  · show (0 : ℚ) ≤ successRateOf g txs
    unfold successRateOf
    positivity
  · show successRateOf g txs ≤ 100
    unfold successRateOf
    have hq : ((confirmedOf g txs).length : ℚ) / (txs.length : ℚ) ≤ 1 :=
      div_le_one_of_le₀ (by exact_mod_cast hc) (le_of_lt h0)
    calc ((confirmedOf g txs).length : ℚ) / (txs.length : ℚ) * 100
        ≤ 1 * 100 := mul_le_mul_of_nonneg_right hq (by norm_num)
      _ = 100 := by norm_num

/-- Claim C3, witness: the amended successRate property evaluated on the
two-transaction run with one confirmation. -/
theorem c3_successRate_witness :
    (verifyBlockInclusion gS1Lands 5 txsTwo).successRate
        = ((confirmedOf gS1Lands txsTwo).length : ℚ) / (txsTwo.length : ℚ) * 100
      ∧ 0 ≤ (verifyBlockInclusion gS1Lands 5 txsTwo).successRate
      ∧ (verifyBlockInclusion gS1Lands 5 txsTwo).successRate ≤ 100 :=
  c3_successRate gS1Lands 5 txsTwo (by decide)

/-- Claim C4, evaluation of the code at the failing input: with the
observed ordinal S = 1000 the engine targets startSlot + 1 = 1001, and the
boundary wait returns upon observing ordinal 1001, before any ordinal
≥ S + 2 = 1002 has been observed — contradicting the required K ≥ 2 and
the repository's own SAME_BLOCK_FIXES.md, which states the target was
changed to currentSlot + 2. -/
theorem c4_code_targets_next_slot :
    execTargetSlot 1000 = 1001
      ∧ waitForSlotEdge 1000 (execTargetSlot 1000) [1001, 1002]
          = some { observedSlot := 1001, settleDelayMs := 0 }
      ∧ 1001 < 1000 + 2 := by
  refine ⟨rfl, rfl, by norm_num⟩

/-- Claim C5: if the boundary wait times out, the cycle returns the
timeout error, no ExecutionReport is produced, and no transaction is
finalized (re-signed against the fresh blockhash) or dispatched. -/
theorem c5_timeout_aborts (env : EngineEnv) (n : Nat)
    (hn : n ≤ (getReadyWallets env.wallets env.cfgCount).length)
    (ht : waitForSlotEdge env.trackerSlot (execTargetSlot env.startSlot)
        env.slotEvents = none) :
    (executeSimultaneously env n).result = Except.error CycleError.timeout
      ∧ (executeSimultaneously env n).finalizedCount = 0
      ∧ (executeSimultaneously env n).dispatchedCount = 0 := by
  have h1 : executeSimultaneously env n
      = { result := Except.error CycleError.timeout
          finalizedCount := 0, dispatchedCount := 0 } := by
    unfold executeSimultaneously
    simp only [ht, if_pos hn]
  rw [h1]
  exact ⟨rfl, rfl, rfl⟩

/-- Claim C5, witness: the timeout abort evaluated on a run whose tracker
never delivers a slot event. -/
theorem c5_timeout_aborts_witness :
    (executeSimultaneously envNeverAdvances 1).result
        = Except.error CycleError.timeout
      ∧ (executeSimultaneously envNeverAdvances 1).finalizedCount = 0
      ∧ (executeSimultaneously envNeverAdvances 1).dispatchedCount = 0 :=
  c5_timeout_aborts envNeverAdvances 1 (by decide) rfl

/-- Claim C6, counterexample to the claim as stated: with three ready
wallets and a configured count of 2, the broadcast uses only wallets A and
B; the ready identity C is silently dropped by the slice in
getReadyWallets. -/
theorem c6_counterexample :
    ((dispatchAll (getReadyWallets wsThreeReady 2) sendAllOk 2).map
        (fun o => o.wallet)) = ["A", "B"]
      ∧ ((wsThreeReady.filter (fun w => w.isReady)).map
          (fun w => w.publicKey)) = ["A", "B", "C"]
      ∧ "C" ∉ ((dispatchAll (getReadyWallets wsThreeReady 2) sendAllOk 2).map
          (fun o => o.wallet)) := by
  refine ⟨rfl, rfl, by decide⟩

/-- Claim C6 (amended): the signer addresses used for broadcast are
exactly the wallets returned by getReadyWallets, in order and without
substitution; getReadyWallets is an index-preserving selection of the
first min(configured count, number ready) ready wallets, so the used set
equals the ready set only when no more wallets are ready than the
configured count — otherwise the excess ready wallets are silently
dropped. -/
theorem c6_broadcast_wallets (ws : List Wallet) (cfg : Nat)
    (send : Nat → Except String String) (i : Nat) (w : Wallet)
    (h : ∀ x ∈ ws, x.publicKey ≠ "")
    (hi : (getReadyWallets ws cfg)[i]? = some w) :
    (dispatchAll (getReadyWallets ws cfg) send
        (getReadyWallets ws cfg).length).map (fun o => o.wallet)
        = (getReadyWallets ws cfg).map (fun x => x.publicKey)
      ∧ (ws.filter (fun x => x.isReady))[i]? = some w
      ∧ (getReadyWallets ws cfg).length
          = min cfg (ws.filter (fun x => x.isReady)).length
      ∧ ((ws.filter (fun x => x.isReady)).length ≤ cfg →
          getReadyWallets ws cfg = ws.filter (fun x => x.isReady)) := by
  refine ⟨?_, ?_, ?_, ?_⟩
  · apply dispatchAll_map_wallet
    intro x hx
    exact h x ((List.filter_sublist ws).subset ((List.take_sublist cfg _).subset hx))
  · rw [getReadyWallets, List.getElem?_take] at hi
    by_cases hlt : i < cfg
    · rwa [if_pos hlt] at hi
    · rw [if_neg hlt] at hi
      exact absurd hi (by simp)
  · exact List.length_take cfg _
  · intro hle
    exact List.take_of_length_le hle

/-- Claim C6, witness: the amended broadcast-wallet property evaluated on
the three-ready-wallet run with configured count 2. -/
theorem c6_broadcast_wallets_witness :
    (dispatchAll (getReadyWallets wsThreeReady 2) sendAllOk
        (getReadyWallets wsThreeReady 2).length).map (fun o => o.wallet)
        = (getReadyWallets wsThreeReady 2).map (fun x => x.publicKey)
      ∧ (wsThreeReady.filter (fun x => x.isReady))[0]? = some wA
      ∧ (getReadyWallets wsThreeReady 2).length
          = min 2 (wsThreeReady.filter (fun x => x.isReady)).length
      ∧ ((wsThreeReady.filter (fun x => x.isReady)).length ≤ 2 →
          getReadyWallets wsThreeReady 2 = wsThreeReady.filter (fun x => x.isReady)) :=
  c6_broadcast_wallets wsThreeReady 2 sendAllOk 0 wA (by decide) (by decide)

/-- Claim C7, evaluation of the code on a successful boundary detection:
both resolve paths of waitForSlotEdge schedule a settle delay of 0 ms
before returning — there is no tens-of-milliseconds settle delay, despite
SAME_BLOCK_FIXES.md stating a 100 ms delay at the slot edge was added. -/
theorem c7_no_settle_delay :
    (waitForSlotEdge 900 901 [901]).map EdgeWait.settleDelayMs = some 0
      ∧ (waitForSlotEdge 950 901 []).map EdgeWait.settleDelayMs = some 0 :=
  ⟨rfl, rfl⟩

/-- Claim C8: dispatch submits with maxRetries = 0 (a failed send is never
retried), returns exactly one outcome per transaction, records a failed
send as a terminal outcome carrying success = false and the error, and a
failure at one index never changes the outcome at any sibling index. -/
theorem c8_dispatch_isolation (ws : List Wallet)
    (send send' : Nat → Except String String) (n i j : Nat) (e : String)
    (hi : i < n) (hj : j < n) (hne : j ≠ i)
    (hfail : send i = Except.error e)
    (hagree : ∀ k, k ≠ i → send k = send' k) :
    sendRawTransactionOptions.maxRetries = 0
      ∧ (dispatchAll ws send n).length = n
      ∧ (dispatchAll ws send n)[i]? = some
          { success := false, signature := none
            wallet := walletKeyAt ws i, error := some e }
      ∧ (dispatchAll ws send n)[j]? = (dispatchAll ws send' n)[j]? := by
  refine ⟨rfl, length_dispatchAll ws send n, ?_, ?_⟩
  · unfold dispatchAll
    rw [List.getElem?_map, List.getElem?_range hi]
    unfold dispatchOne
    simp only [Option.map_some']
    rw [hfail]
  · unfold dispatchAll
    rw [List.getElem?_map, List.getElem?_range hj,
      List.getElem?_map, List.getElem?_range hj]
    unfold dispatchOne
    simp only [Option.map_some']
    rw [hagree j hne]

/-- Claim C8, witness: the dispatch-isolation property evaluated on a
two-transaction batch whose first send fails, against an endpoint that
differs only at that first index. -/
theorem c8_dispatch_isolation_witness :
    sendRawTransactionOptions.maxRetries = 0
      ∧ (dispatchAll [wA] sendFailsAtZero 2).length = 2
      ∧ (dispatchAll [wA] sendFailsAtZero 2)[0]? = some
          { success := false, signature := none
            wallet := walletKeyAt [wA] 0, error := some "boom" }
      ∧ (dispatchAll [wA] sendFailsAtZero 2)[1]?
          = (dispatchAll [wA] sendOkAtZero 2)[1]? :=
  c8_dispatch_isolation [wA] sendFailsAtZero sendOkAtZero 2 0 1 "boom"
    (by decide) (by decide) (by decide) rfl
    (fun k hk => by simp [sendFailsAtZero, sendOkAtZero, hk])

/-- Claim C9: verifyBlockInclusion returns one record per input element in
the same order, each record copies the wallet and hash of its input
unchanged, and a record is confirmed iff it carries a landed slot. -/
theorem c9_record_fields (g : String → Option TxInfo) (cur : Nat)
    (txs : List TxData) (i : Nat) (r : TxRecord) (t : TxData)
    (hr : (verifyBlockInclusion g cur txs).transactionHashes[i]? = some r)
    (ht : txs[i]? = some t) :
    (verifyBlockInclusion g cur txs).transactionHashes.length = txs.length
      ∧ r.wallet = t.wallet ∧ r.hash = t.hash
      ∧ (r.confirmed = true ↔ r.slot ≠ none) := by
  have hlen : (verifyBlockInclusion g cur txs).transactionHashes.length
      = txs.length := by
    show (recordsOf g txs).length = txs.length
    unfold recordsOf
    exact List.length_map _ _
  have hrec : (verifyBlockInclusion g cur txs).transactionHashes
      = txs.map (checkTransaction g) := rfl
  rw [hrec, List.getElem?_map, ht, Option.map_some'] at hr
  have hr2 : checkTransaction g t = r := by
    injection hr
  subst hr2
  refine ⟨hlen, ?_, ?_, ?_⟩
  all_goals unfold checkTransaction
  all_goals cases hg : g t.hash <;> simp

/-- Claim C9, witness: the record-shape property evaluated at index 0 of
the two-transaction run. -/
theorem c9_record_fields_witness :
    (verifyBlockInclusion gTwoSlots 500 txsTwo).transactionHashes.length
        = txsTwo.length
      ∧ recTwoHead.wallet = txTwoHead.wallet
      ∧ recTwoHead.hash = txTwoHead.hash
      ∧ (recTwoHead.confirmed = true ↔ recTwoHead.slot ≠ none) :=
  c9_record_fields gTwoSlots 500 txsTwo 0 recTwoHead txTwoHead
    (by decide) (by decide)

/-- Claim C10: on a non-empty input with no confirmed transaction, the set
of landed slots is empty, allInSameBlock is false (the spread comparison
over the empty slot list does not hold), and the reported blockHeight
falls back to the tracker's current slot at verification time. -/
theorem c10_no_confirmations (g : String → Option TxInfo) (cur : Nat)
    (txs : List TxData) (_hne : txs ≠ [])
    (hnone : ∀ t ∈ txs, g t.hash = none) :
    landedSlots g txs = []
      ∧ (verifyBlockInclusion g cur txs).allInSameBlock = false
      ∧ (verifyBlockInclusion g cur txs).blockHeight = cur := by
  have hconf : confirmedOf g txs = [] := by
    rw [confirmedOf, List.filter_eq_nil_iff]
    intro r hrm
    obtain ⟨t, htm, rfl⟩ := List.mem_map.mp hrm
    simp [checkTransaction, hnone t htm]
  have hland : landedSlots g txs = [] := by
    rw [landedSlots, hconf]
    rfl
  refine ⟨hland, ?_, ?_⟩
  · rw [verify_allInSameBlock, hland]
    rfl
  · rw [verify_blockHeight, hland]
    have hcalc : allInSameBlockCalc (uniqueSlotsOf []) = false := rfl
    rw [hcalc]
    simp only [Bool.false_eq_true, if_false]
    exact jsNumOr_some_self cur

/-- Claim C10, witness: the no-confirmation behavior evaluated on a
two-transaction run where nothing confirms. -/
theorem c10_no_confirmations_witness :
    landedSlots gNone txsTwo = []
      ∧ (verifyBlockInclusion gNone 7 txsTwo).allInSameBlock = false
      ∧ (verifyBlockInclusion gNone 7 txsTwo).blockHeight = 7 :=
  c10_no_confirmations gNone 7 txsTwo (by decide) (by decide)

end PumpSync
